import Mathlib

/-!
Verification of the notification-dispatch subsystem of the careops
platform backend (FastAPI + SQLAlchemy).  The embedding translates the
relevant Python functions into executable Lean definitions: database
lookups become list searches, exceptions become explicit constructors of
result types, and the outcome of the external provider API call is an
input parameter (the code never inspects it beyond success / exception).
-/

namespace CareOps

/-- Integration.type values (app/models/integration.py, class IntegrationType). -/
inductive IntegrationType where
  | email
  | sms
  | calendar
  | webhook
deriving DecidableEq, Repr

/-- One row of the integrations table.  The `config` credential map is
opaque to the dispatch logic (only the abstracted provider call consumes
it), so it is not carried in the embedding. -/
structure Integration where
  workspace_id : Nat
  type : IntegrationType
  is_active : Bool
deriving DecidableEq, Repr

/-- The lookup `db.query(Integration).filter(workspace_id == wid, type == t,
is_active == True).first()` shared by both sender services. -/
def findActiveIntegration (ints : List Integration) (wid : Nat)
    (t : IntegrationType) : Option Integration :=
  ints.find? (fun i => i.workspace_id == wid && i.type == t && i.is_active)

/-- Outcome of the raw provider API call, an external input to the
embedding: the provider returns an id, raises the provider library's
ApiException, or raises some other exception type. -/
inductive ProviderCallResult where
  | success (messageId : String)
  | apiError (e : String)
  | otherError (e : String)
deriving DecidableEq, Repr

/-- What a sender call does as observed by its caller: a returned
success dict, a returned failure dict with an error string, or an
exception propagating out of the function. -/
inductive SendResult where
  | ok (messageId : String)
  | fail (error : String)
  | raised (msg : String)
deriving DecidableEq, Repr

/-- A sender invocation: its observable result plus how many provider API
calls were performed. -/
structure SendModel where
  result : SendResult
  providerCalls : Nat
deriving DecidableEq, Repr

/-- app/services/email_service.py `send_email`: raises when no active EMAIL
integration exists (before any provider call); the try block converts only
ApiException into a returned failure dict, any other exception propagates. -/
def send_email (ints : List Integration) (wid : Nat)
    (provider : ProviderCallResult) : SendModel :=
  match findActiveIntegration ints wid .email with
  | none => { result := .raised "Email integration not configured", providerCalls := 0 }
  | some _ =>
    match provider with
    | .success mid => { result := .ok mid, providerCalls := 1 }
    | .apiError e => { result := .fail e, providerCalls := 1 }
    | .otherError e => { result := .raised e, providerCalls := 1 }

/-- app/services/sms_service.py `send_sms`: raises when no active SMS
integration exists; the try block catches every Exception. -/
def send_sms (ints : List Integration) (wid : Nat)
    (provider : ProviderCallResult) : SendModel :=
  match findActiveIntegration ints wid .sms with
  | none => { result := .raised "SMS integration not configured", providerCalls := 0 }
  | some _ =>
    match provider with
    | .success sid => { result := .ok sid, providerCalls := 1 }
    | .apiError e => { result := .fail e, providerCalls := 1 }
    | .otherError e => { result := .fail e, providerCalls := 1 }

/-- Message.channel values (app/models/conversation.py, class MessageChannel). -/
inductive MessageChannel where
  | email
  | sms
  | system
deriving DecidableEq, Repr

/-- One row of the messages table (the ActivityRecord of the spec), with
the fields the dispatch code sets. -/
structure Message where
  conversation_id : Nat
  channel : MessageChannel
  is_from_customer : Bool
  is_automated : Bool
  content : String
deriving DecidableEq, Repr

/-- Python truthiness of an optional string field: None and "" are falsy. -/
def truthy : Option String → Bool
  | none => false
  | some s => s != ""

/-- `data.message or "No message provided"` in submit_contact_form. -/
def orDefault (s : Option String) (d : String) : String :=
  match s with
  | some v => if v = "" then d else v
  | none => d

/-- Booking.status values (app/models/booking.py, class BookingStatus). -/
inductive BookingStatus where
  | pending
  | confirmed
  | completed
  | no_show
  | cancelled
deriving DecidableEq, Repr

/-- The status-string dispatch at the top of update_booking_status
(app/routes/bookings.py lines 93-102): any other string, including
"no_show", falls to `raise HTTPException(400, "Invalid status")`. -/
def parseStatus : String → Option BookingStatus
  | "pending" => some .pending
  | "confirmed" => some .confirmed
  | "completed" => some .completed
  | "cancelled" => some .cancelled
  | _ => none

/-- The subject/message template chain of update_booking_status (lines
112-123): only confirmed / cancelled / completed produce content, every
other accepted status leaves subject and message as None. -/
def statusTemplate (serviceName dateStr : String) (status : String) :
    Option (String × String) :=
  if status = "confirmed" then
    some ("Booking Confirmed - " ++ serviceName,
      "Your booking for " ++ serviceName ++ " on " ++ dateStr ++ " has been confirmed!")
  else if status = "cancelled" then
    some ("Booking Cancelled - " ++ serviceName,
      "Your booking for " ++ serviceName ++ " on " ++ dateStr ++ " has been cancelled.")
  else if status = "completed" then
    some ("Booking Completed - " ++ serviceName,
      "Thank you for visiting! Your booking for " ++ serviceName ++ " has been completed.")
  else none

/-- A route either answers with a payload or raises an HTTPException with a
status code. -/
inductive RouteResult (α : Type) where
  | ok (a : α)
  | httpError (code : Nat)
deriving DecidableEq, Repr

/-- The JSON body returned by PATCH /bookings/:id/status. -/
structure StatusResponse where
  success : Bool
  status : BookingStatus
  notification_sent : Bool
deriving DecidableEq, Repr

/-- Observable effect of one update_booking_status call: the status
committed by the first db.commit (none when the request was rejected), the
activity records appended afterwards, the HTTP answer, and how many email
provider calls happened. -/
structure StatusUpdateOutcome where
  committedStatus : Option BookingStatus
  messages : List Message
  response : RouteResult StatusResponse
  emailProviderCalls : Nat
deriving DecidableEq, Repr

/-- app/routes/bookings.py `update_booking_status`, after the booking row is
found.  Faithful points: the status and the system message are committed
before the email try block; `if contact.email` uses Python truthiness; the
EMAIL activity record is appended after send_email returns, without
inspecting the returned success flag; the except only catches a raised
exception. -/
def update_booking_status (wid : Nat) (reqStatus : String)
    (send_notification : Bool) (contactEmail : Option String)
    (conv : Option Nat) (serviceName dateStr : String)
    (ints : List Integration) (provider : ProviderCallResult) :
    StatusUpdateOutcome :=
  match parseStatus reqStatus with
  | none =>
    { committedStatus := none, messages := [], response := .httpError 400,
      emailProviderCalls := 0 }
  | some st =>
    let resp : RouteResult StatusResponse :=
      .ok { success := true, status := st, notification_sent := send_notification }
    let base : StatusUpdateOutcome :=
      { committedStatus := some st, messages := [], response := resp,
        emailProviderCalls := 0 }
    if send_notification then
      match statusTemplate serviceName dateStr reqStatus with
      | none => base
      | some (subject, _msg) =>
        match conv with
        | none => base
        | some cid =>
          let statusMsg : Message :=
            { conversation_id := cid, channel := .system,
              is_from_customer := false, is_automated := true,
              content := "Booking status updated to: " ++ reqStatus }
          if truthy contactEmail then
            let s := send_email ints wid provider
            match s.result with
            | .raised _ =>
              { base with
                  messages := [statusMsg]
                  emailProviderCalls := s.providerCalls }
            | _ =>
              { base with
                  messages := [statusMsg,
                    { conversation_id := cid, channel := .email,
                      is_from_customer := false, is_automated := true,
                      content := "Status notification email sent: " ++ subject }]
                  emailProviderCalls := s.providerCalls }
          else
            { base with messages := [statusMsg] }
    else
      base

/-- Observable effect of one submit_contact_form call (after the workspace
lookup succeeded). -/
structure ContactFormOutcome where
  conversationCreated : Bool
  messages : List Message
  success : Bool
  emailProviderCalls : Nat
deriving DecidableEq, Repr

/-- app/routes/public.py `submit_contact_form`: contact, conversation and
the initial system message are committed first; the welcome email is
attempted only when the submitter gave a (truthy) email and
workspace.email_configured is set; the EMAIL activity record is appended
only when send_email returned with success true; a raised exception is
caught and only printed. -/
def submit_contact_form (wid : Nat) (emailConfigured : Bool)
    (dataEmail : Option String) (msgText : Option String) (convId : Nat)
    (ints : List Integration) (provider : ProviderCallResult) :
    ContactFormOutcome :=
  let initial : Message :=
    { conversation_id := convId, channel := .system, is_from_customer := true,
      is_automated := false, content := orDefault msgText "No message provided" }
  if truthy dataEmail && emailConfigured then
    let s := send_email ints wid provider
    match s.result with
    | .ok _ =>
      { conversationCreated := true,
        messages := [initial,
          { conversation_id := convId, channel := .email,
            is_from_customer := false, is_automated := true,
            content := "Automated welcome email sent" }],
        success := true, emailProviderCalls := s.providerCalls }
    | _ =>
      { conversationCreated := true, messages := [initial], success := true,
        emailProviderCalls := s.providerCalls }
  else
    { conversationCreated := true, messages := [initial], success := true,
      emailProviderCalls := 0 }

/-- Observable effect of one create_booking call (after workspace and
service lookups succeeded). -/
structure CreateBookingOutcome where
  bookingCommitted : Bool
  bookingStatus : BookingStatus
  messages : List Message
  success : Bool
  confirmation_sent : Bool
  sms_sent : Bool
  emailProviderCalls : Nat
deriving DecidableEq, Repr

/-- app/routes/public.py `create_booking`: the booking row (status PENDING)
and its system message are committed, then the calendar, email and SMS
attempts each run inside their own try/except.  The calendar attempt never
touches the email/SMS providers or the messages list, so it is not carried.
The response booleans come from the tenant flag (`confirmation_sent`:
workspace.email_configured) and from `customer_phone is not None`
(`sms_sent`), while the email attempt is additionally gated on a truthy
customer_email and the SMS attempt on a truthy customer_phone; the
EMAIL/SMS activity record is appended only when the send returned with
success true. -/
def create_booking (wid : Nat) (emailConfigured : Bool)
    (customer_email : String) (customer_phone : Option String) (convId : Nat)
    (ints : List Integration)
    (emailProvider smsProvider : ProviderCallResult) : CreateBookingOutcome :=
  let bookingMsg : Message :=
    { conversation_id := convId, channel := .system, is_from_customer := true,
      is_automated := false, content := "Booking created" }
  let emailPart : List Message × Nat :=
    if customer_email != "" && emailConfigured then
      let s := send_email ints wid emailProvider
      match s.result with
      | .ok _ =>
        ([{ conversation_id := convId, channel := .email,
            is_from_customer := false, is_automated := true,
            content := "Booking confirmation email sent" }], s.providerCalls)
      | _ => ([], s.providerCalls)
    else ([], 0)
  let smsPart : List Message :=
    if truthy customer_phone then
      let s := send_sms ints wid smsProvider
      match s.result with
      | .ok _ =>
        [{ conversation_id := convId, channel := .sms,
           is_from_customer := false, is_automated := true,
           content := "Booking confirmation SMS sent" }]
      | _ => []
    else []
  { bookingCommitted := true, bookingStatus := .pending,
    messages := bookingMsg :: (emailPart.1 ++ smsPart),
    success := true,
    confirmation_sent := emailConfigured,
    sms_sent := customer_phone.isSome,
    emailProviderCalls := emailPart.2 }

/-- The JSON body returned by POST /staff/invite/:workspace_id. -/
structure InviteOutcome where
  userCreated : Bool
  email_sent : Bool
  success : Bool
  emailProviderCalls : Nat
deriving DecidableEq, Repr

/-- app/routes/staff.py `invite_staff_member`: 400 when a user with that
email exists, 404 when the workspace is missing; otherwise the user row is
committed, then the invitation email is attempted unconditionally inside
try/except, and email_sent is True whenever send_email returned without
raising (its success flag is not inspected). -/
def invite_staff_member (existingUser : Bool) (workspaceExists : Bool)
    (wid : Nat) (ints : List Integration) (provider : ProviderCallResult) :
    RouteResult InviteOutcome :=
  if existingUser then .httpError 400
  else if !workspaceExists then .httpError 404
  else
    let s := send_email ints wid provider
    match s.result with
    | .raised _ =>
      .ok { userCreated := true, email_sent := false, success := true,
            emailProviderCalls := s.providerCalls }
    | _ =>
      .ok { userCreated := true, email_sent := true, success := true,
            emailProviderCalls := s.providerCalls }

/-- One row of the contacts table as read by the reminder sweep. -/
structure Contact where
  id : Nat
  email : Option String
deriving DecidableEq, Repr

/-- One row of the bookings table as read by the reminder sweep;
booking_date in minutes UTC, matching the minute-precision datetime
arithmetic of the window bounds. -/
structure RBooking where
  id : Nat
  workspace_id : Nat
  contact_id : Nat
  service_id : Nat
  booking_date : Int
  status : BookingStatus
deriving DecidableEq, Repr

/-- The database rows the sweep reads: bookings, the contacts / services /
workspaces it looks up per booking (only existence of service and workspace
rows matters to the control flow), and the integrations table consumed by
send_email. -/
structure SweepState where
  bookings : List RBooking
  contacts : List Contact
  serviceIds : List Nat
  workspaceIds : List Nat
  integrations : List Integration
deriving DecidableEq, Repr

/-- The selection filter of app/tasks/reminders.py lines 23-35:
booking_date within [now + 23h, now + 25h] inclusive and status CONFIRMED
or PENDING.  Times in minutes: 23h = 1380 and 25h = 1500. -/
def eligible (now : Int) (b : RBooking) : Bool :=
  decide (now + 1380 ≤ b.booking_date) && decide (b.booking_date ≤ now + 1500) &&
    (b.status == .confirmed || b.status == .pending)

/-- `bookings_to_remind` of the sweep. -/
def sweepSelected (now : Int) (st : SweepState) : List RBooking :=
  st.bookings.filter (eligible now)

/-- The body of one loop iteration of the sweep: `none` means the iteration
skipped before any send (missing contact / service / workspace row, or no
truthy contact email); `some r` means send_email was invoked and observed
as r — a raised exception is caught by the per-booking except clause. -/
def attemptBooking (st : SweepState) (provider : Nat → ProviderCallResult)
    (b : RBooking) : Option SendResult :=
  match st.contacts.find? (fun c => c.id == b.contact_id) with
  | none => none
  | some c =>
    if st.serviceIds.contains b.service_id && st.workspaceIds.contains b.workspace_id then
      if truthy c.email then
        some (send_email st.integrations b.workspace_id (provider b.id)).result
      else none
    else none

/-- The sweep's full iteration: one entry per selected booking, carrying
the booking id and what its loop iteration did. -/
def sweepAttempts (now : Int) (st : SweepState)
    (provider : Nat → ProviderCallResult) : List (Nat × Option SendResult) :=
  (sweepSelected now st).map (fun b => (b.id, attemptBooking st provider b))

/-- `reminders_sent += 1` runs whenever send_email returned without
raising, whatever the success flag inside the returned dict says. -/
def countedAttempt : Option SendResult → Bool
  | some (.ok _) => true
  | some (.fail _) => true
  | _ => false

/-- The value of `reminders_sent` at the end of the loop. -/
def sweepCount (now : Int) (st : SweepState)
    (provider : Nat → ProviderCallResult) : Nat :=
  ((sweepAttempts now st provider).filter (fun q => countedAttempt q.2)).length

/-- app/tasks/reminders.py `send_booking_reminders` with its outermost
try/except: any exception escaping the body (outerFailure) yields
`return 0`.  The loop mutates no booking row and keeps no marker, so the
database state the function leaves behind is the one it read. -/
def send_booking_reminders (now : Int) (st : SweepState)
    (provider : Nat → ProviderCallResult) (outerFailure : Option String) : Nat :=
  match outerFailure with
  | some _ => 0
  | none => sweepCount now st provider

/-- One invocation of the sweep as a state transformer: result value, the
attempt trace, and the database state it leaves behind (unchanged, since
the source performs no writes to bookings and keeps no dedup marker). -/
def sweepRun (now : Int) (st : SweepState)
    (provider : Nat → ProviderCallResult) :
    (Nat × List (Nat × Option SendResult)) × SweepState :=
  ((sweepCount now st provider, sweepAttempts now st provider), st)

/-- The JSON body returned by GET /api/tasks/send-reminders. -/
structure TriggerResponse where
  success : Bool
  reminders_sent : Option Nat
  error : Option String
deriving DecidableEq, Repr

/-- The `count = send_booking_reminders()` call of main.py
`trigger_reminders`, seen through the surrounding try: calling a function
that returns a number and cannot raise is injected with .ok. -/
def callReminders (now : Int) (st : SweepState)
    (provider : Nat → ProviderCallResult) (outerFailure : Option String) :
    Except String Nat :=
  .ok (send_booking_reminders now st provider outerFailure)

/-- app/main.py `trigger_reminders`: the try answers success true with the
count, the except answers success false with the error string. -/
def trigger_reminders (now : Int) (st : SweepState)
    (provider : Nat → ProviderCallResult) (outerFailure : Option String) :
    TriggerResponse :=
  match callReminders now st provider outerFailure with
  | .ok n => { success := true, reminders_sent := some n, error := none }
  | .error e => { success := false, reminders_sent := none, error := some e }

/-- Does the list of appended records contain an automated record of the
given channel? -/
def hasAutoMsg (ms : List Message) (ch : MessageChannel) : Bool :=
  ms.any (fun m => m.channel == ch && m.is_automated)

/-- A send observed by its caller as a normal return (success dict of
either polarity), as opposed to a raised exception. -/
def completedWithoutRaising : SendResult → Bool
  | .raised _ => false
  | _ => true

/-- A workspace with one active email and one active SMS integration, used
by concrete witnesses. -/
def demoInts : List Integration :=
  [{ workspace_id := 1, type := .email, is_active := true },
   { workspace_id := 1, type := .sms, is_active := true }]

/-- A contact, booking and sweep state used by concrete witnesses: booking
10 is 24h ahead of now = 0 and CONFIRMED. -/
def demoContact : Contact := { id := 2, email := some "a@b.com" }

def demoBooking : RBooking :=
  { id := 10, workspace_id := 1, contact_id := 2, service_id := 3,
    booking_date := 1440, status := .confirmed }

def demoState : SweepState :=
  { bookings := [demoBooking], contacts := [demoContact], serviceIds := [3],
    workspaceIds := [1], integrations := demoInts }

/-! Helper lemmas shared by several claims. -/

lemma send_email_none (ints : List Integration) (wid : Nat)
    (p : ProviderCallResult) (h : findActiveIntegration ints wid .email = none) :
    send_email ints wid p =
      { result := .raised "Email integration not configured", providerCalls := 0 } := by
  simp [send_email, h]

lemma update_status_response (wid : Nat) (reqStatus : String) (sendN : Bool)
    (contactEmail : Option String) (conv : Option Nat)
    (serviceName dateStr : String) (ints : List Integration)
    (p : ProviderCallResult) (bst : BookingStatus)
    (hparse : parseStatus reqStatus = some bst) :
    (update_booking_status wid reqStatus sendN contactEmail conv serviceName
        dateStr ints p).committedStatus = some bst ∧
    (update_booking_status wid reqStatus sendN contactEmail conv serviceName
        dateStr ints p).response =
      .ok { success := true, status := bst, notification_sent := sendN } := by
  cases hN : sendN
  · simp [update_booking_status, hparse]
  · cases htemp : statusTemplate serviceName dateStr reqStatus with
    | none => simp [update_booking_status, hparse, htemp]
    | some sm =>
      obtain ⟨subject, msg⟩ := sm
      cases hconv : conv with
      | none => simp [update_booking_status, hparse, htemp]
      | some cid =>
        cases hce : truthy contactEmail
        · simp [update_booking_status, hparse, htemp, hce]
        · cases hres : (send_email ints wid p).result <;>
            simp [update_booking_status, hparse, htemp, hce, hres]

lemma invite_staff_cases (wid : Nat) (ints : List Integration)
    (p : ProviderCallResult) :
    invite_staff_member false true wid ints p =
      .ok { userCreated := true,
            email_sent := completedWithoutRaising (send_email ints wid p).result,
            success := true,
            emailProviderCalls := (send_email ints wid p).providerCalls } := by
  unfold invite_staff_member
  cases h : (send_email ints wid p).result <;>
    simp [completedWithoutRaising, h]

lemma eligible_iff (now : Int) (b : RBooking) :
    eligible now b = true ↔
      now + 1380 ≤ b.booking_date ∧ b.booking_date ≤ now + 1500 ∧
        (b.status = .pending ∨ b.status = .confirmed) := by
  unfold eligible
  simp only [Bool.and_eq_true, Bool.or_eq_true, decide_eq_true_eq, beq_iff_eq]
  tauto

lemma filter_map_length {α β : Type} (f : α → β) (q : β → Bool) (l : List α) :
    ((l.map f).filter q).length = (l.filter (fun a => q (f a))).length := by
  induction l with
  | nil => rfl
  | cons a t ih =>
    simp only [List.map_cons, List.filter_cons]
    cases q (f a) <;> simp [ih]

/-! The claims. -/

/-- Claim C1, counterexample: with no active integration of the channel's
type, send_email and send_sms raise an exception instead of returning an
outcome value — configuration absence is not a non-raising branch inside
the senders. -/
theorem C1_counterexample :
    (send_email [] 1 (.success "m")).result =
      .raised "Email integration not configured" ∧
    (send_sms [] 1 (.success "m")).result =
      .raised "SMS integration not configured" :=
  ⟨rfl, rfl⟩

/-- Claim C1, amended: when no active integration of the channel's type
exists each sender raises (making zero provider calls) and its callers must
catch; with an active integration, send_sms never raises — every provider
exception becomes a returned failure outcome — while send_email converts
ApiException to a returned failure outcome but lets any other provider
exception propagate. -/
theorem C1_sender_boundary (ints : List Integration) (wid : Nat)
    (p : ProviderCallResult) :
    (findActiveIntegration ints wid .email = none →
      send_email ints wid p =
        { result := .raised "Email integration not configured", providerCalls := 0 }) ∧
    (findActiveIntegration ints wid .sms = none →
      send_sms ints wid p =
        { result := .raised "SMS integration not configured", providerCalls := 0 }) ∧
    (findActiveIntegration ints wid .sms ≠ none →
      ∀ e, (send_sms ints wid p).result ≠ .raised e) ∧
    (findActiveIntegration ints wid .email ≠ none →
      ∀ e, (p = .apiError e → (send_email ints wid p).result = .fail e) ∧
           (p = .otherError e → (send_email ints wid p).result = .raised e)) := by
  refine ⟨?_, ?_, ?_, ?_⟩
  · intro h; exact send_email_none ints wid p h
  · intro h; simp [send_sms, h]
  · intro h e
    rcases hf : findActiveIntegration ints wid .sms with _ | i
    · exact absurd hf h
    · cases p <;> simp [send_sms, hf]
  · intro h e
    rcases hf : findActiveIntegration ints wid .email with _ | i
    · exact absurd hf h
    · constructor
      · rintro rfl; simp [send_email, hf]
      · rintro rfl; simp [send_email, hf]

/-- Witness for C1_sender_boundary at concrete inputs. -/
theorem C1_sender_boundary_witness :
    send_email [] 1 (.success "m") =
      { result := .raised "Email integration not configured", providerCalls := 0 } ∧
    (send_sms demoInts 1 (.otherError "boom")).result ≠ .raised "boom" ∧
    (send_email demoInts 1 (.apiError "bad")).result = .fail "bad" := by
  refine ⟨(C1_sender_boundary [] 1 (.success "m")).1 rfl, ?_, ?_⟩
  · exact (C1_sender_boundary demoInts 1 (.otherError "boom")).2.2.1 (by decide) "boom"
  · exact ((C1_sender_boundary demoInts 1 (.apiError "bad")).2.2.2 (by decide) "bad").1 rfl

/-- Claim C5: the sweep selects a CONFIRMED booking at exactly now + 24h,
rejects now + 22h59m and now + 25h1m, and in general selects exactly the
bookings with booking_date in [now + 23h, now + 25h] and status PENDING or
CONFIRMED (times in minutes). -/
theorem C5_window_selection (now : Int) (b : RBooking) :
    eligible now { b with booking_date := now + 1440, status := .confirmed } = true ∧
    eligible now { b with booking_date := now + 1379 } = false ∧
    eligible now { b with booking_date := now + 1501 } = false ∧
    (eligible now b = true ↔
      now + 1380 ≤ b.booking_date ∧ b.booking_date ≤ now + 1500 ∧
        (b.status = .pending ∨ b.status = .confirmed)) := by
  refine ⟨?_, ?_, ?_, eligible_iff now b⟩
  · refine (eligible_iff _ _).mpr ⟨?_, ?_, Or.inr rfl⟩
    · show now + 1380 ≤ now + 1440
      omega
    · show now + 1440 ≤ now + 1500
      omega
  · rw [Bool.eq_false_iff]
    intro h
    obtain ⟨h1, h2, h3⟩ := (eligible_iff _ _).mp h
    have h1' : now + 1380 ≤ now + 1379 := h1
    omega
  · rw [Bool.eq_false_iff]
    intro h
    obtain ⟨h1, h2, h3⟩ := (eligible_iff _ _).mp h
    have h2' : now + 1501 ≤ now + 1500 := h2
    omega

/-- Claim C2: once the primary row is committed, a notification failure —
raised exception or returned failure outcome, under every integration table
and provider behavior — is caught locally: create_booking still reports
success with the booking committed, update_booking_status (for an accepted
status) still commits the requested status and answers with success, and
invite_staff_member still reports success with the user created. -/
theorem C2_primary_effect_isolated (wid : Nat) (emailConfigured : Bool)
    (customer_email : String) (customer_phone : Option String) (convId : Nat)
    (ints : List Integration) (pe ps p : ProviderCallResult)
    (reqStatus : String) (bst : BookingStatus) (sendN : Bool)
    (contactEmail : Option String) (conv : Option Nat)
    (serviceName dateStr : String)
    (hparse : parseStatus reqStatus = some bst) :
    (create_booking wid emailConfigured customer_email customer_phone convId
        ints pe ps).bookingCommitted = true ∧
    (create_booking wid emailConfigured customer_email customer_phone convId
        ints pe ps).success = true ∧
    (update_booking_status wid reqStatus sendN contactEmail conv serviceName
        dateStr ints p).committedStatus = some bst ∧
    (update_booking_status wid reqStatus sendN contactEmail conv serviceName
        dateStr ints p).response =
      .ok { success := true, status := bst, notification_sent := sendN } ∧
    ∃ r, invite_staff_member false true wid ints p = .ok r ∧
      r.userCreated = true ∧ r.success = true := by
  obtain ⟨hc, hr⟩ := update_status_response wid reqStatus sendN contactEmail
    conv serviceName dateStr ints p bst hparse
  exact ⟨rfl, rfl, hc, hr, _, invite_staff_cases wid ints p, rfl, rfl⟩

/-- Witness for C2_primary_effect_isolated: a failing provider (rejected
API key) leaves every primary effect in place. -/
theorem C2_primary_effect_isolated_witness :
    (create_booking 1 true "a@b.com" (some "+123") 7 demoInts
        (.apiError "bad") (.apiError "bad")).bookingCommitted = true ∧
    (create_booking 1 true "a@b.com" (some "+123") 7 demoInts
        (.apiError "bad") (.apiError "bad")).success = true ∧
    (update_booking_status 1 "confirmed" true (some "a@b.com") (some 7)
        "Cut" "June 1" demoInts (.apiError "bad")).committedStatus =
      some .confirmed ∧
    (update_booking_status 1 "confirmed" true (some "a@b.com") (some 7)
        "Cut" "June 1" demoInts (.apiError "bad")).response =
      .ok { success := true, status := .confirmed, notification_sent := true } ∧
    ∃ r, invite_staff_member false true 1 demoInts (.apiError "bad") = .ok r ∧
      r.userCreated = true ∧ r.success = true :=
  C2_primary_effect_isolated 1 true "a@b.com" (some "+123") 7 demoInts
    (.apiError "bad") (.apiError "bad") (.apiError "bad") "confirmed"
    .confirmed true (some "a@b.com") (some 7) "Cut" "June 1" rfl

/-- Claim C3, counterexample: on the status-change path the EMAIL activity
record is appended even though send_email returned a failure outcome — the
record is not restricted to success outcomes. -/
theorem C3_counterexample :
    hasAutoMsg (update_booking_status 1 "confirmed" true (some "a@b.com")
      (some 7) "Cut" "June 1" demoInts (.apiError "bad")).messages .email = true ∧
    (send_email demoInts 1 (.apiError "bad")).result = .fail "bad" :=
  ⟨rfl, rfl⟩

lemma hasAutoMsg_submit (wid : Nat) (emailConfigured : Bool)
    (dataEmail msgText : Option String) (convId : Nat)
    (ints : List Integration) (p : ProviderCallResult) :
    hasAutoMsg (submit_contact_form wid emailConfigured dataEmail msgText
        convId ints p).messages .email = true ↔
      (truthy dataEmail && emailConfigured) = true ∧
      ∃ m, (send_email ints wid p).result = .ok m := by
  cases hg : truthy dataEmail && emailConfigured
  · simp [submit_contact_form, hasAutoMsg, hg]
  · cases hres : (send_email ints wid p).result <;>
      simp [submit_contact_form, hasAutoMsg, hg, hres]

lemma hasAutoMsg_create_email (wid : Nat) (emailConfigured : Bool)
    (customer_email : String) (customer_phone : Option String) (convId : Nat)
    (ints : List Integration) (pe ps : ProviderCallResult) :
    hasAutoMsg (create_booking wid emailConfigured customer_email
        customer_phone convId ints pe ps).messages .email = true ↔
      (customer_email != "" && emailConfigured) = true ∧
      ∃ m, (send_email ints wid pe).result = .ok m := by
  cases hg : customer_email != "" && emailConfigured <;>
    cases hp : truthy customer_phone <;>
    cases he : (send_email ints wid pe).result <;>
    cases hs : (send_sms ints wid ps).result <;>
    simp [create_booking, hasAutoMsg, hg, hp, he, hs]

lemma hasAutoMsg_create_sms (wid : Nat) (emailConfigured : Bool)
    (customer_email : String) (customer_phone : Option String) (convId : Nat)
    (ints : List Integration) (pe ps : ProviderCallResult) :
    hasAutoMsg (create_booking wid emailConfigured customer_email
        customer_phone convId ints pe ps).messages .sms = true ↔
      truthy customer_phone = true ∧
      ∃ m, (send_sms ints wid ps).result = .ok m := by
  cases hg : customer_email != "" && emailConfigured <;>
    cases hp : truthy customer_phone <;>
    cases he : (send_email ints wid pe).result <;>
    cases hs : (send_sms ints wid ps).result <;>
    simp [create_booking, hasAutoMsg, hg, hp, he, hs]

lemma hasAutoMsg_update (wid : Nat) (reqStatus : String) (sendN : Bool)
    (contactEmail : Option String) (conv : Option Nat)
    (serviceName dateStr : String) (ints : List Integration)
    (p : ProviderCallResult) :
    hasAutoMsg (update_booking_status wid reqStatus sendN contactEmail conv
        serviceName dateStr ints p).messages .email = true ↔
      ((parseStatus reqStatus).isSome ∧ sendN = true ∧
        (statusTemplate serviceName dateStr reqStatus).isSome ∧
        conv.isSome ∧ truthy contactEmail = true ∧
        completedWithoutRaising (send_email ints wid p).result = true) := by
  cases hparse : parseStatus reqStatus with
  | none => simp [update_booking_status, hasAutoMsg, hparse]
  | some bst =>
    cases hN : sendN
    · simp [update_booking_status, hasAutoMsg, hparse]
    · cases htemp : statusTemplate serviceName dateStr reqStatus with
      | none => simp [update_booking_status, hasAutoMsg, hparse, htemp]
      | some sm =>
        obtain ⟨subject, msg⟩ := sm
        cases hconv : conv with
        | none => simp [update_booking_status, hasAutoMsg, hparse, htemp]
        | some cid =>
          cases hce : truthy contactEmail
          · simp [update_booking_status, hasAutoMsg, hparse, htemp, hce]
          · cases hres : (send_email ints wid p).result <;>
              simp [update_booking_status, hasAutoMsg, completedWithoutRaising,
                hparse, htemp, hce, hres]

/-- Claim C3, amended: on the contact-form and booking-creation paths an
automated EMAIL (resp. SMS) activity record is appended exactly when the
corresponding send returned a success outcome; on the status-change path
the EMAIL record is appended exactly when the dispatch gates pass and
send_email returned without raising — including when it returned a failure
outcome; a raised exception never yields a record on any path. -/
theorem C3_activity_logging (wid : Nat) (emailConfigured : Bool)
    (dataEmail msgText : Option String) (convId : Nat)
    (ints : List Integration) (p pe ps : ProviderCallResult)
    (customer_email : String) (customer_phone : Option String)
    (reqStatus : String) (sendN : Bool) (contactEmail : Option String)
    (conv : Option Nat) (serviceName dateStr : String) :
    (hasAutoMsg (submit_contact_form wid emailConfigured dataEmail msgText
        convId ints p).messages .email = true ↔
      (truthy dataEmail && emailConfigured) = true ∧
      ∃ m, (send_email ints wid p).result = .ok m) ∧
    (hasAutoMsg (create_booking wid emailConfigured customer_email
        customer_phone convId ints pe ps).messages .email = true ↔
      (customer_email != "" && emailConfigured) = true ∧
      ∃ m, (send_email ints wid pe).result = .ok m) ∧
    (hasAutoMsg (create_booking wid emailConfigured customer_email
        customer_phone convId ints pe ps).messages .sms = true ↔
      truthy customer_phone = true ∧
      ∃ m, (send_sms ints wid ps).result = .ok m) ∧
    (hasAutoMsg (update_booking_status wid reqStatus sendN contactEmail conv
        serviceName dateStr ints p).messages .email = true ↔
      ((parseStatus reqStatus).isSome ∧ sendN = true ∧
        (statusTemplate serviceName dateStr reqStatus).isSome ∧
        conv.isSome ∧ truthy contactEmail = true ∧
        completedWithoutRaising (send_email ints wid p).result = true)) :=
  ⟨hasAutoMsg_submit wid emailConfigured dataEmail msgText convId ints p,
   hasAutoMsg_create_email wid emailConfigured customer_email customer_phone
     convId ints pe ps,
   hasAutoMsg_create_sms wid emailConfigured customer_email customer_phone
     convId ints pe ps,
   hasAutoMsg_update wid reqStatus sendN contactEmail conv serviceName
     dateStr ints p⟩

/-- Claim C4, counterexample: one eligible booking whose provider call
fails with ApiException — send_email returns a failure outcome, yet the
sweep returns 1 while the number of successful sends is 0. -/
theorem C4_counterexample :
    send_booking_reminders 0 demoState (fun _ => .apiError "bad") none = 1 ∧
    ((sweepAttempts 0 demoState (fun _ => .apiError "bad")).filter
      (fun q => match q.2 with | some (.ok _) => true | _ => false)).length = 0 :=
  ⟨rfl, rfl⟩

/-- Claim C4, amended: every selected booking gets its own loop iteration —
an iteration's behavior depends only on that booking's own provider call,
so one failing booking never aborts the others — and the returned value
counts the iterations in which send_email returned without raising, which
includes iterations whose returned outcome was a failure. -/
theorem C4_sweep_count (now : Int) (st : SweepState)
    (provider provider2 : Nat → ProviderCallResult) (b : RBooking)
    (hb : b ∈ sweepSelected now st) (hp : provider b.id = provider2 b.id) :
    (b.id, attemptBooking st provider b) ∈ sweepAttempts now st provider ∧
    attemptBooking st provider b = attemptBooking st provider2 b ∧
    send_booking_reminders now st provider none =
      ((sweepSelected now st).filter
        (fun x => countedAttempt (attemptBooking st provider x))).length := by
  refine ⟨List.mem_map.mpr ⟨b, hb, rfl⟩, ?_, ?_⟩
  · unfold attemptBooking
    rw [hp]
  · show sweepCount now st provider = _
    unfold sweepCount sweepAttempts
    exact filter_map_length _ _ _

/-- Witness for C4_sweep_count at the demo state. -/
theorem C4_sweep_count_witness :
    (10, some (SendResult.fail "bad")) ∈
      sweepAttempts 0 demoState (fun _ => .apiError "bad") ∧
    attemptBooking demoState (fun _ => .apiError "bad") demoBooking =
      attemptBooking demoState (fun _ => .apiError "bad") demoBooking ∧
    send_booking_reminders 0 demoState (fun _ => .apiError "bad") none =
      ((sweepSelected 0 demoState).filter
        (fun x => countedAttempt
          (attemptBooking demoState (fun _ => .apiError "bad") x))).length :=
  C4_sweep_count 0 demoState (fun _ => .apiError "bad")
    (fun _ => .apiError "bad") demoBooking (by decide) rfl

/-- Claim C6: the sweep is not idempotent — it leaves the database state it
read unchanged (no dedup marker), so an eligible booking whose iteration
reached a provider-accepted send is sent again by a second run on the state
the first run left behind, and the second run returns the same count. -/
theorem C6_not_idempotent (now : Int) (st : SweepState)
    (provider : Nat → ProviderCallResult) (b : RBooking) (m : String)
    (hb : b ∈ sweepSelected now st)
    (hattempt : attemptBooking st provider b = some (.ok m)) :
    (sweepRun now st provider).2 = st ∧
    (b.id, some (SendResult.ok m)) ∈ (sweepRun now st provider).1.2 ∧
    (b.id, some (SendResult.ok m)) ∈
      (sweepRun now (sweepRun now st provider).2 provider).1.2 ∧
    (sweepRun now (sweepRun now st provider).2 provider).1.1 =
      (sweepRun now st provider).1.1 := by
  have hmem : (b.id, some (SendResult.ok m)) ∈ sweepAttempts now st provider :=
    List.mem_map.mpr ⟨b, hb, by rw [hattempt]⟩
  exact ⟨rfl, hmem, hmem, rfl⟩

/-- Witness for C6_not_idempotent: booking 10 of the demo state is sent in
both of two consecutive runs with no intervening state change. -/
theorem C6_not_idempotent_witness :
    (sweepRun 0 demoState (fun _ => .success "m")).2 = demoState ∧
    (10, some (SendResult.ok "m")) ∈
      (sweepRun 0 demoState (fun _ => .success "m")).1.2 ∧
    (10, some (SendResult.ok "m")) ∈
      (sweepRun 0 (sweepRun 0 demoState (fun _ => .success "m")).2
        (fun _ => .success "m")).1.2 ∧
    (sweepRun 0 (sweepRun 0 demoState (fun _ => .success "m")).2
        (fun _ => .success "m")).1.1 =
      (sweepRun 0 demoState (fun _ => .success "m")).1.1 :=
  C6_not_idempotent 0 demoState (fun _ => .success "m") demoBooking "m"
    (by decide) rfl

/-- Claim C7, counterexample: a status-change request for "no_show" does
not succeed — it is rejected with HTTP 400 before any update. -/
theorem C7_counterexample :
    (update_booking_status 1 "no_show" true (some "a@b.com") (some 7)
      "Cut" "June 1" demoInts (.success "m")).response = .httpError 400 ∧
    (update_booking_status 1 "no_show" true (some "a@b.com") (some 7)
      "Cut" "June 1" demoInts (.success "m")).committedStatus = none :=
  ⟨rfl, rfl⟩

/-- Claim C7, amended: "pending" commits the status and produces zero
notification content (no template, no send, no record); "no_show" is not an
accepted status on this endpoint — it is rejected with HTTP 400 and nothing
is updated or sent; a template exists exactly for confirmed, cancelled and
completed. -/
theorem C7_status_dispatch (wid : Nat) (sendN : Bool)
    (contactEmail : Option String) (conv : Option Nat)
    (serviceName dateStr : String) (ints : List Integration)
    (p : ProviderCallResult) (s : String) :
    update_booking_status wid "pending" sendN contactEmail conv serviceName
        dateStr ints p =
      { committedStatus := some .pending, messages := [],
        response := .ok { success := true, status := .pending,
                          notification_sent := sendN },
        emailProviderCalls := 0 } ∧
    update_booking_status wid "no_show" sendN contactEmail conv serviceName
        dateStr ints p =
      { committedStatus := none, messages := [], response := .httpError 400,
        emailProviderCalls := 0 } ∧
    ((statusTemplate serviceName dateStr s).isSome ↔
      (s = "confirmed" ∨ s = "cancelled" ∨ s = "completed")) := by
  refine ⟨?_, rfl, ?_⟩
  · cases sendN <;> rfl
  · unfold statusTemplate
    split_ifs with h1 h2 h3
    · simp [h1]
    · simp [h1, h2]
    · simp [h1, h2, h3]
    · simp [h1, h2, h3]

lemma submit_noint (wid : Nat) (emailConfigured : Bool)
    (dataEmail msgText : Option String) (convId : Nat)
    (ints : List Integration) (p : ProviderCallResult)
    (hnone : findActiveIntegration ints wid .email = none) :
    (submit_contact_form wid emailConfigured dataEmail msgText convId ints
        p).emailProviderCalls = 0 ∧
    (submit_contact_form wid emailConfigured dataEmail msgText convId ints
        p).success = true := by
  cases hg : truthy dataEmail && emailConfigured
  · simp [submit_contact_form, hg]
  · simp [submit_contact_form, hg, send_email_none ints wid p hnone]

lemma create_noint (wid : Nat) (emailConfigured : Bool)
    (customer_email : String) (customer_phone : Option String) (convId : Nat)
    (ints : List Integration) (pe ps : ProviderCallResult)
    (hnone : findActiveIntegration ints wid .email = none) :
    (create_booking wid emailConfigured customer_email customer_phone convId
        ints pe ps).emailProviderCalls = 0 := by
  cases hg : customer_email != "" && emailConfigured
  · simp [create_booking, hg]
  · simp [create_booking, hg, send_email_none ints wid pe hnone]

lemma update_noint (wid : Nat) (reqStatus : String) (sendN : Bool)
    (contactEmail : Option String) (conv : Option Nat)
    (serviceName dateStr : String) (ints : List Integration)
    (p : ProviderCallResult)
    (hnone : findActiveIntegration ints wid .email = none) :
    (update_booking_status wid reqStatus sendN contactEmail conv serviceName
        dateStr ints p).emailProviderCalls = 0 := by
  cases hparse : parseStatus reqStatus with
  | none => simp [update_booking_status, hparse]
  | some bst =>
    cases hN : sendN
    · simp [update_booking_status, hparse]
    · cases htemp : statusTemplate serviceName dateStr reqStatus with
      | none => simp [update_booking_status, hparse, htemp]
      | some sm =>
        obtain ⟨subject, msg⟩ := sm
        cases hconv : conv with
        | none => simp [update_booking_status, hparse, htemp]
        | some cid =>
          cases hce : truthy contactEmail
          · simp [update_booking_status, hparse, htemp, hce]
          · simp [update_booking_status, hparse, htemp, hce,
              send_email_none ints wid p hnone]

/-- Claim C8: when the tenant has no active EMAIL integration, every
email-eligible path — contact-form submission, booking creation, status
change with notification requested, staff invitation — makes zero calls to
the email provider and the endpoint still answers without error. -/
theorem C8_no_email_integration (wid : Nat) (emailConfigured : Bool)
    (dataEmail msgText : Option String) (convId : Nat)
    (ints : List Integration) (p pe ps : ProviderCallResult)
    (customer_email : String) (customer_phone : Option String)
    (reqStatus : String) (bst : BookingStatus) (sendN : Bool)
    (contactEmail : Option String) (conv : Option Nat)
    (serviceName dateStr : String)
    (hnone : findActiveIntegration ints wid .email = none)
    (hparse : parseStatus reqStatus = some bst) :
    (submit_contact_form wid emailConfigured dataEmail msgText convId ints
        p).emailProviderCalls = 0 ∧
    (submit_contact_form wid emailConfigured dataEmail msgText convId ints
        p).success = true ∧
    (create_booking wid emailConfigured customer_email customer_phone convId
        ints pe ps).emailProviderCalls = 0 ∧
    (create_booking wid emailConfigured customer_email customer_phone convId
        ints pe ps).success = true ∧
    (update_booking_status wid reqStatus sendN contactEmail conv serviceName
        dateStr ints p).emailProviderCalls = 0 ∧
    (update_booking_status wid reqStatus sendN contactEmail conv serviceName
        dateStr ints p).response =
      .ok { success := true, status := bst, notification_sent := sendN } ∧
    ∃ r, invite_staff_member false true wid ints p = .ok r ∧
      r.emailProviderCalls = 0 ∧ r.success = true := by
  obtain ⟨h1, h2⟩ := submit_noint wid emailConfigured dataEmail msgText convId
    ints p hnone
  refine ⟨h1, h2,
    create_noint wid emailConfigured customer_email customer_phone convId
      ints pe ps hnone, rfl,
    update_noint wid reqStatus sendN contactEmail conv serviceName dateStr
      ints p hnone,
    (update_status_response wid reqStatus sendN contactEmail conv serviceName
      dateStr ints p bst hparse).2,
    _, invite_staff_cases wid ints p, ?_, rfl⟩
  show (send_email ints wid p).providerCalls = 0
  rw [send_email_none ints wid p hnone]

/-- Witness for C8_no_email_integration with an empty integration table. -/
theorem C8_no_email_integration_witness :
    (submit_contact_form 1 true (some "a@b.com") none 7 []
        (.success "m")).emailProviderCalls = 0 ∧
    (submit_contact_form 1 true (some "a@b.com") none 7 []
        (.success "m")).success = true ∧
    (create_booking 1 true "a@b.com" (some "+123") 7 [] (.success "m")
        (.success "m")).emailProviderCalls = 0 ∧
    (create_booking 1 true "a@b.com" (some "+123") 7 [] (.success "m")
        (.success "m")).success = true ∧
    (update_booking_status 1 "confirmed" true (some "a@b.com") (some 7)
        "Cut" "June 1" [] (.success "m")).emailProviderCalls = 0 ∧
    (update_booking_status 1 "confirmed" true (some "a@b.com") (some 7)
        "Cut" "June 1" [] (.success "m")).response =
      .ok { success := true, status := .confirmed, notification_sent := true } ∧
    ∃ r, invite_staff_member false true 1 [] (.success "m") = .ok r ∧
      r.emailProviderCalls = 0 ∧ r.success = true :=
  C8_no_email_integration 1 true (some "a@b.com") none 7 [] (.success "m")
    (.success "m") (.success "m") "a@b.com" (some "+123") "confirmed"
    .confirmed true (some "a@b.com") (some 7) "Cut" "June 1" rfl rfl

/-- Claim C9: the notification-status booleans in the responses are
computed from request and tenant flags alone — notification_sent echoes the
request's send_notification flag, confirmation_sent echoes
workspace.email_configured, sms_sent echoes whether a phone was supplied —
and are unchanged under any other integration table or provider outcome. -/
theorem C9_response_flags (wid : Nat) (emailConfigured : Bool)
    (customer_email : String) (customer_phone : Option String) (convId : Nat)
    (ints ints2 : List Integration)
    (pe ps pe2 ps2 p p2 : ProviderCallResult) (reqStatus : String)
    (bst : BookingStatus) (sendN : Bool) (contactEmail : Option String)
    (conv : Option Nat) (serviceName dateStr : String)
    (hparse : parseStatus reqStatus = some bst) :
    (create_booking wid emailConfigured customer_email customer_phone convId
        ints pe ps).confirmation_sent = emailConfigured ∧
    (create_booking wid emailConfigured customer_email customer_phone convId
        ints pe ps).sms_sent = customer_phone.isSome ∧
    (update_booking_status wid reqStatus sendN contactEmail conv serviceName
        dateStr ints p).response =
      .ok { success := true, status := bst, notification_sent := sendN } ∧
    (create_booking wid emailConfigured customer_email customer_phone convId
        ints2 pe2 ps2).confirmation_sent =
      (create_booking wid emailConfigured customer_email customer_phone convId
        ints pe ps).confirmation_sent ∧
    (create_booking wid emailConfigured customer_email customer_phone convId
        ints2 pe2 ps2).sms_sent =
      (create_booking wid emailConfigured customer_email customer_phone convId
        ints pe ps).sms_sent ∧
    (update_booking_status wid reqStatus sendN contactEmail conv serviceName
        dateStr ints2 p2).response =
      (update_booking_status wid reqStatus sendN contactEmail conv serviceName
        dateStr ints p).response := by
  refine ⟨rfl, rfl,
    (update_status_response wid reqStatus sendN contactEmail conv serviceName
      dateStr ints p bst hparse).2, rfl, rfl, ?_⟩
  rw [(update_status_response wid reqStatus sendN contactEmail conv
        serviceName dateStr ints2 p2 bst hparse).2,
      (update_status_response wid reqStatus sendN contactEmail conv
        serviceName dateStr ints p bst hparse).2]

/-- Witness for C9_response_flags: the flags are identical between a
configured tenant with a succeeding provider and an empty integration table
with a failing provider. -/
theorem C9_response_flags_witness :
    (create_booking 1 true "a@b.com" (some "+123") 7 demoInts (.success "m")
        (.success "m")).confirmation_sent = true ∧
    (create_booking 1 true "a@b.com" (some "+123") 7 demoInts (.success "m")
        (.success "m")).sms_sent = (some "+123").isSome ∧
    (update_booking_status 1 "cancelled" false (some "a@b.com") (some 7)
        "Cut" "June 1" demoInts (.success "m")).response =
      .ok { success := true, status := .cancelled, notification_sent := false } ∧
    (create_booking 1 true "a@b.com" (some "+123") 7 [] (.apiError "bad")
        (.apiError "bad")).confirmation_sent =
      (create_booking 1 true "a@b.com" (some "+123") 7 demoInts (.success "m")
        (.success "m")).confirmation_sent ∧
    (create_booking 1 true "a@b.com" (some "+123") 7 [] (.apiError "bad")
        (.apiError "bad")).sms_sent =
      (create_booking 1 true "a@b.com" (some "+123") 7 demoInts (.success "m")
        (.success "m")).sms_sent ∧
    (update_booking_status 1 "cancelled" false (some "a@b.com") (some 7)
        "Cut" "June 1" [] (.apiError "bad")).response =
      (update_booking_status 1 "cancelled" false (some "a@b.com") (some 7)
        "Cut" "June 1" demoInts (.success "m")).response :=
  C9_response_flags 1 true "a@b.com" (some "+123") 7 demoInts []
    (.success "m") (.success "m") (.apiError "bad") (.apiError "bad")
    (.success "m") (.apiError "bad") "cancelled" .cancelled false
    (some "a@b.com") (some 7) "Cut" "June 1" rfl

/-- Claim C10: the outer handler makes send_booking_reminders total — a
body failure returns 0, a normal body returns the loop count — so the
trigger endpoint's error branch is unreachable: it always answers
success:true with the reminders_sent count and no error. -/
theorem C10_trigger_total (now : Int) (st : SweepState)
    (provider : Nat → ProviderCallResult) (outerFailure : Option String)
    (e : String) :
    send_booking_reminders now st provider (some e) = 0 ∧
    send_booking_reminders now st provider none = sweepCount now st provider ∧
    (trigger_reminders now st provider outerFailure).success = true ∧
    (trigger_reminders now st provider outerFailure).reminders_sent =
      some (send_booking_reminders now st provider outerFailure) ∧
    (trigger_reminders now st provider outerFailure).error = none :=
  ⟨rfl, rfl, rfl, rfl, rfl⟩

end CareOps
